import Mathlib

/-
  Verification of the buffer-lifecycle and backpressure engine of the
  es8388 I2S test character driver (src/os/drivers/audio/es8388char.c).

  The driver state `es8388char_dev_s` is embedded as the structure `DevS`;
  counting semaphores are embedded by their counter value (a `sem_wait`
  that would block is represented by the operation returning `none` /
  being disabled), the received-buffer queue `rxedq` as a list of buffer
  identifiers, and machine integers as `Nat`/`Int` (`uint16_t` values are
  reduced with `toInt16` where the source converts them to `int16_t`).
  External collaborators (the buffer pool `apb_alloc` and the I2S
  transport `I2S_SEND` / `I2S_RECEIVE`) are embedded as result oracles
  passed to each call, matching their immediate accept/reject return.
-/

namespace ES8388

/-- Error numbers used by the driver (standard errno values; only their
sign and distinctness matter to the driver logic). -/
def ENOMEM : Int := 12

/-- errno EIO_ERRNO, used here as a representative transport rejection code. -/
def EIO_ERRNO : Int := 5

/-- errno ERANGE, returned (negated) by `es8388char_configure` for an
unsupported output configuration. -/
def ERANGE : Int := 34

/-- errno ENOTTY, returned (negated) for an unrecognized feature unit. -/
def ENOTTY : Int := 25

/-- Success return value `OK`. -/
def OK : Int := 0

/-- `ES8388CHAR_RXBUF_CNT` from es8388char.c line 96. -/
def ES8388CHAR_RXBUF_CNT : Nat := 8

/-- `ES8388CHAR_TXBUF_CNT` from es8388char.c line 97: initial value of the
`alloc` counting semaphore (the Admission Gate ceiling C). -/
def ES8388CHAR_TXBUF_CNT : Nat := 8

/- Capability type and feature-unit codes from tinyara/audio/audio.h
(header outside src/; the dispatch logic depends only on the codes being
distinct). -/

def AUDIO_TYPE_OUTPUT : Nat := 0x04
def AUDIO_TYPE_FEATURE : Nat := 0x20
def AUDIO_TYPE_PROCESSING : Nat := 0x80

def AUDIO_FU_MUTE : Nat := 0x0001
def AUDIO_FU_VOLUME : Nat := 0x0002
def AUDIO_FU_BALANCE : Nat := 0x0800
def AUDIO_FU_MICGAIN : Nat := 0x0400

/- Sample-rate constants from tinyara/audio/audio.h (values in Hz). -/

def AUDIO_SAMP_RATE_8K : Nat := 8000
def AUDIO_SAMP_RATE_12K : Nat := 12000
def AUDIO_SAMP_RATE_16K : Nat := 16000
def AUDIO_SAMP_RATE_24K : Nat := 24000
def AUDIO_SAMP_RATE_32K : Nat := 32000
def AUDIO_SAMP_RATE_48K : Nat := 48000
def AUDIO_SAMP_RATE_96K : Nat := 96000

/-- Reduction of a `uint16_t` bit pattern to the value of the `int16_t` it
is converted to (`int16_t gain = caps->ac_controls.hw[0];`). -/
def toInt16 (v : Nat) : Int :=
  if v % 65536 < 32768 then ((v % 65536 : Nat) : Int)
  else ((v % 65536 : Nat) : Int) - 65536

/-- The fields of `struct audio_caps_s` read by `es8388char_configure`:
`ac_type`, `ac_format.hw`, `ac_controls.hw[0]`, `ac_controls.b[0]`,
`ac_controls.b[2]`, `ac_channels`. -/
structure audio_caps_s where
  ac_type : Nat
  ac_format_hw : Nat
  ac_controls_hw0 : Nat
  ac_controls_b0 : Nat
  ac_controls_b2 : Nat
  ac_channels : Nat
deriving DecidableEq, Repr

/-- The driver state `struct es8388char_dev_s` (es8388char.c lines
109-141), with the counting semaphores `alloc` and `cnt_rxsem` embedded
as their counter values and the queue `rxedq` as a list of buffer
identifiers.  The mutexes `exclsem` and `rxsem` are embedded as the
atomicity of each operation; the i2s/i2c collaborator pointers are
replaced by per-call oracles (`Ext`). -/
structure DevS where
  samprate : Nat
  bpsamp : Nat
  nchannels : Nat
  volume : Nat
  balance : Int
  micgain : Int
  mute : Bool
  running : Bool
  paused : Bool
  terminating : Bool
  alloc : Nat
  rxedq : List Nat
  cnt_rxsem : Nat
  rx_cnt : Int
deriving DecidableEq, Repr

/-- The device state produced by `es8388char_register` (es8388char.c lines
793-808): `kmm_zalloc` zeroes every field, then `alloc` is initialized to
`ES8388CHAR_TXBUF_CNT` and `cnt_rxsem` to 0. -/
def initDev : DevS :=
  { samprate := 0, bpsamp := 0, nchannels := 0, volume := 0, balance := 0,
    micgain := 0, mute := false, running := false, paused := false,
    terminating := false, alloc := ES8388CHAR_TXBUF_CNT, rxedq := [],
    cnt_rxsem := 0, rx_cnt := 0 }

/-- Results of the external collaborator calls made during one ioctl:
the return of the i-th `apb_alloc`, of `I2S_SEND`, and of the i-th
`I2S_RECEIVE` (negative means pool failure / transport rejection). -/
structure Ext where
  apb_alloc_ret : Nat → Int
  i2s_send_ret : Int
  i2s_receive_ret : Nat → Int

/-- The sample-rate-to-FsRatio mapping of `es8388char_setbitrate`
(es8388char.c lines 295-321); `none` is the `default:` branch, which only
logs "Not supported sample rate" and returns without programming the
codec and without reporting an error. -/
def setbitrateFsCode (samprate : Nat) : Option Nat :=
  if samprate = AUDIO_SAMP_RATE_8K then some 0x0A
  else if samprate = AUDIO_SAMP_RATE_12K then some 0x07
  else if samprate = AUDIO_SAMP_RATE_16K then some 0x06
  else if samprate = AUDIO_SAMP_RATE_24K then some 0x04
  else if samprate = AUDIO_SAMP_RATE_32K then some 0x03
  else if samprate = AUDIO_SAMP_RATE_48K then some 0x02
  else if samprate = AUDIO_SAMP_RATE_96K then some 0x00
  else none

/-- `es8388char_configure` (es8388char.c lines 391-489).  Returns the
updated driver state and the `int` return value.  The register writes in
`es8388char_setvolume` / `es8388char_setmic` are commented out in the
source and `es8388char_setdatawidth` / `es8388char_setbitrate` only touch
the collaborators, so none of them changes the driver state. -/
def es8388char_configure (priv : DevS) (caps : audio_caps_s) : DevS × Int :=
  if caps.ac_type = AUDIO_TYPE_FEATURE then
    if caps.ac_format_hw = AUDIO_FU_VOLUME then
      (if caps.ac_controls_hw0 ≤ 1000 then
         { priv with volume := 63 - 63 * caps.ac_controls_hw0 / 1000 }
       else priv, OK)
    else if caps.ac_format_hw = AUDIO_FU_MUTE then
      ({ priv with mute := caps.ac_controls_b0 ≠ 0 }, OK)
    else if caps.ac_format_hw = AUDIO_FU_BALANCE then
      (if (toInt16 caps.ac_controls_hw0).natAbs ≤ 1000 then
         { priv with balance := toInt16 caps.ac_controls_hw0 }
       else priv, OK)
    else if caps.ac_format_hw = AUDIO_FU_MICGAIN then
      (if -16 ≤ toInt16 caps.ac_controls_hw0 ∧ toInt16 caps.ac_controls_hw0 ≤ 53 then
         { priv with micgain := toInt16 caps.ac_controls_hw0 }
       else priv, OK)
    else (priv, -ENOTTY)
  else if caps.ac_type = AUDIO_TYPE_OUTPUT then
    if caps.ac_channels ≠ 2 then (priv, -ERANGE)
    else ({ priv with samprate := caps.ac_controls_hw0,
                      nchannels := caps.ac_channels,
                      bpsamp := caps.ac_controls_b2 }, OK)
  else (priv, OK)

/-- `es8388char_start` (es8388char.c lines 499-510): every statement is
commented out; it returns `OK` unconditionally. -/
def es8388char_start (priv : DevS) : DevS × Int := (priv, OK)

/-- `es8388char_stop` (es8388char.c lines 512-518): returns `OK`
unconditionally. -/
def es8388char_stop (priv : DevS) : DevS × Int := (priv, OK)

/-- `es8388char_rxcallback` (es8388char.c lines 537-551): under `rxsem`,
`dq_addlast` appends the completed buffer to `rxedq`, then `cnt_rxsem` is
posted. -/
def es8388char_rxcallback (priv : DevS) (apb : Nat) : DevS :=
  { priv with rxedq := priv.rxedq ++ [apb], cnt_rxsem := priv.cnt_rxsem + 1 }

/-- `es8388char_txcallback` (es8388char.c lines 566-578): `apb_free(apb)`
then `sem_post(&priv->alloc)`.  This is the only place the `alloc`
semaphore is posted. -/
def es8388char_txcallback (priv : DevS) : DevS :=
  { priv with alloc := priv.alloc + 1 }

/-- The pre-posting loop of `AUDIOIOC_DEQUEUEBUFFER` (es8388char.c lines
682-705): while `rx_cnt < ES8388CHAR_RXBUF_CNT`, call `apb_alloc` (break
on failure), then `I2S_RECEIVE` (free the buffer and break on failure),
else increment `rx_cnt` under `rxsem`.  Returns the final `rx_cnt` and
`ret`.  `fuel` is instantiated to the exact iteration bound
`(8 - rx_cnt).toNat`; the `bufdesc->numbytes` default (16 KiB) and buffer
pointer plumbing touch no driver state and are omitted. -/
def rxFill (apbRet recvRet : Nat → Int) : Nat → Nat → Int → Int → Int × Int
  | 0, _, rx_cnt, ret => (rx_cnt, ret)
  | fuel + 1, i, rx_cnt, ret =>
    if rx_cnt < (ES8388CHAR_RXBUF_CNT : Int) then
      if apbRet i < 0 then (rx_cnt, apbRet i)
      else if recvRet i < 0 then (rx_cnt, recvRet i)
      else rxFill apbRet recvRet fuel (i + 1) (rx_cnt + 1) (recvRet i)
    else (rx_cnt, ret)

/-- The ioctl commands dispatched by `es8388char_ioctl` (the `switch
(cmd)` of es8388char.c lines 633-747); `other` is any command code not
among the recognized `AUDIOIOC_*` cases, falling to `default:`. -/
inductive IoctlCmd where
  | allocbuffer
  | freebuffer
  | enqueuebuffer (apb : Nat)
  | dequeuebuffer
  | configure (caps : audio_caps_s)
  | start
  | stop
  | other (cmd : Nat)
deriving DecidableEq, Repr

/-- Size of `struct audio_buf_desc_s`, returned by `AUDIOIOC_FREEBUFFER`
on success (the exact platform `sizeof` is irrelevant to the driver
logic; it is some positive constant). -/
def sizeof_audio_buf_desc : Int := 16

/-- `es8388char_ioctl` (es8388char.c lines 614-751).  `none` means the
call blocks on a `sem_wait` whose counter is zero (`alloc` in
`AUDIOIOC_ALLOCBUFFER`, `cnt_rxsem` in `AUDIOIOC_DEQUEUEBUFFER`); the
empty-queue branch after a successful `cnt_rxsem` wait cannot be reached
(availability invariant) and is likewise mapped to `none`.  `ret` starts
at 0 and the `default:` case only logs. -/
def es8388char_ioctl (priv : DevS) (cmd : IoctlCmd) (e : Ext) :
    Option (DevS × Int) :=
  match cmd with
  | .allocbuffer =>
    -- sem_wait(&priv->alloc); ret = apb_alloc(bufdesc);
    if priv.alloc = 0 then none
    else some ({ priv with alloc := priv.alloc - 1 }, e.apb_alloc_ret 0)
  | .freebuffer =>
    -- apb_free(bufdesc->u.pBuffer); rx_cnt-- under rxsem
    some ({ priv with rx_cnt := priv.rx_cnt - 1 }, sizeof_audio_buf_desc)
  | .enqueuebuffer _ =>
    -- ret = I2S_SEND(priv->i2s, ..., es8388char_txcallback, priv, ...)
    some (priv, e.i2s_send_ret)
  | .dequeuebuffer =>
    let fr := rxFill e.apb_alloc_ret e.i2s_receive_ret
                ((8 - priv.rx_cnt).toNat) 0 priv.rx_cnt 0
    let s1 : DevS := { priv with rx_cnt := fr.1 }
    if 0 ≤ fr.2 then
      if s1.cnt_rxsem = 0 then none
      else
        match s1.rxedq with
        | [] => none
        | _ :: rest =>
          some ({ s1 with cnt_rxsem := s1.cnt_rxsem - 1, rxedq := rest }, 0)
    else some (s1, fr.2)
  | .configure caps => some (es8388char_configure priv caps)
  | .start => some (es8388char_start priv)
  | .stop => some (es8388char_stop priv)
  | .other _ => some (priv, 0)

/-- Admission-gate system state: the driver state plus two ghost counters
tracking buffer custody — `held` buffers have passed `AUDIOIOC_ALLOCBUFFER`
successfully but have not yet been handed to `I2S_SEND`, and `inflight`
buffers have been accepted by `I2S_SEND`, so exactly one
`es8388char_txcallback` is pending for each (the transport calls back
exactly once per accepted request and never for a rejected one). -/
structure GateSys where
  dev : DevS
  held : Nat
  inflight : Nat
deriving DecidableEq, Repr

/-- The freshly registered admission-gate system. -/
def gateInit : GateSys := { dev := initDev, held := 0, inflight := 0 }

/-- One step of the admission-gate protocol, each performed by the
corresponding driver entry point: an `AUDIOIOC_ALLOCBUFFER` call (the
pool result `r` is the `apb_alloc` return; on success the buffer becomes
held), an `AUDIOIOC_ENQUEUEBUFFER` call on a held buffer (`r` is the
`I2S_SEND` return; on acceptance the buffer becomes inflight), a pending
`es8388char_txcallback` delivery, or an `AUDIOIOC_FREEBUFFER`
(ReleaseBuffer) call. -/
inductive GateStep : GateSys → GateSys → Prop where
  | alloc (g : GateSys) (e : Ext) (d : DevS) (r : Int)
      (h : es8388char_ioctl g.dev .allocbuffer e = some (d, r)) :
      GateStep g ⟨d, g.held + (if 0 ≤ r then 1 else 0), g.inflight⟩
  | enqueue (g : GateSys) (e : Ext) (apb : Nat) (d : DevS) (r : Int)
      (hh : g.held ≠ 0)
      (h : es8388char_ioctl g.dev (.enqueuebuffer apb) e = some (d, r)) :
      GateStep g ⟨d, g.held - 1, g.inflight + (if 0 ≤ r then 1 else 0)⟩
  | complete (g : GateSys) (hi : g.inflight ≠ 0) :
      GateStep g ⟨es8388char_txcallback g.dev, g.held, g.inflight - 1⟩
  | free (g : GateSys) (e : Ext) (d : DevS) (r : Int)
      (h : es8388char_ioctl g.dev .freebuffer e = some (d, r)) :
      GateStep g ⟨d, g.held, g.inflight⟩

/-- Reachability of a gate-system state from the freshly registered
device by admission-gate steps. -/
inductive GateReach : GateSys → Prop where
  | init : GateReach gateInit
  | step {g g' : GateSys} : GateReach g → GateStep g g' → GateReach g'

/-- The Admission Gate's in-use count: ceiling (8) minus the current
value of the `alloc` counting semaphore. -/
def gateInUse (g : GateSys) : Int := (ES8388CHAR_TXBUF_CNT : Int) - (g.dev.alloc : Int)

/-- Events of the receive-completion subsystem: `enq b` is the
`es8388char_rxcallback` completion of buffer `b`; `deq b` is the
consumer dequeue of buffer `b` inside `AUDIOIOC_DEQUEUEBUFFER`. -/
inductive RxEvent where
  | enq (b : Nat)
  | deq (b : Nat)
deriving DecidableEq, Repr

/-- Buffers enqueued by the completion callbacks of a trace, in order. -/
def enqs : List RxEvent → List Nat
  | [] => []
  | .enq b :: es => b :: enqs es
  | .deq _ :: es => enqs es

/-- Buffers dequeued by the consumer during a trace, in order. -/
def deqs : List RxEvent → List Nat
  | [] => []
  | .enq _ :: es => deqs es
  | .deq b :: es => b :: deqs es

/-- One step of the receive-completion subsystem: either the transport
delivers a completed buffer via `es8388char_rxcallback` (lines 537-551),
or the consumer half of `AUDIOIOC_DEQUEUEBUFFER` (lines 711-721) runs:
`sem_wait(&priv->cnt_rxsem)` — enabled only when the counter is nonzero —
followed by `dq_remfirst(&priv->rxedq)` under `rxsem`.  (The pre-posting
loop that precedes the dequeue touches only `rx_cnt`, never `rxedq`.) -/
inductive RxStep : DevS → RxEvent → DevS → Prop where
  | callback (s : DevS) (b : Nat) :
      RxStep s (.enq b) (es8388char_rxcallback s b)
  | dequeue (s : DevS) (b : Nat) (rest : List Nat)
      (hc : s.cnt_rxsem ≠ 0) (hq : s.rxedq = b :: rest) :
      RxStep s (.deq b) { s with cnt_rxsem := s.cnt_rxsem - 1, rxedq := rest }

/-- A trace of receive-completion steps from one device state to
another, for an arbitrary interleaving of producer callbacks and
consumer dequeues. -/
inductive RxTrace : DevS → List RxEvent → DevS → Prop where
  | nil (s : DevS) : RxTrace s [] s
  | cons {s s' s'' : DevS} {e : RxEvent} {es : List RxEvent} :
      RxStep s e s' → RxTrace s' es s'' → RxTrace s (e :: es) s''

/- Oracles used for concrete instances. -/

/-- Collaborators all succeeding (`apb_alloc` returns a positive size,
`I2S_SEND`/`I2S_RECEIVE` accept). -/
def extNull : Ext := ⟨fun _ => 16, 0, fun _ => 16⟩

/-- Pool exhausted: every `apb_alloc` returns `-ENOMEM`. -/
def extPoolFail : Ext := ⟨fun _ => -ENOMEM, 0, fun _ => 16⟩

/-- Transport rejecting transmit requests: `I2S_SEND` returns `-EIO_ERRNO`. -/
def extSendRej : Ext := ⟨fun _ => 16, -EIO_ERRNO, fun _ => 16⟩

/- Inversion lemmas for `es8388char_ioctl`. -/

theorem ioctl_allocbuffer_some {s d : DevS} {e : Ext} {r : Int}
    (h : es8388char_ioctl s .allocbuffer e = some (d, r)) :
    s.alloc ≠ 0 ∧ d = { s with alloc := s.alloc - 1 } := by
  by_cases hz : s.alloc = 0
  · simp [es8388char_ioctl, hz] at h
  · simp only [es8388char_ioctl, hz, if_false, Option.some.injEq, Prod.mk.injEq] at h
    exact ⟨hz, h.1.symm⟩

theorem ioctl_enqueuebuffer_some {s d : DevS} {e : Ext} {r : Int} {apb : Nat}
    (h : es8388char_ioctl s (.enqueuebuffer apb) e = some (d, r)) :
    d = s := by
  simp only [es8388char_ioctl, Option.some.injEq, Prod.mk.injEq] at h
  exact h.1.symm

theorem ioctl_freebuffer_some {s d : DevS} {e : Ext} {r : Int}
    (h : es8388char_ioctl s .freebuffer e = some (d, r)) :
    d = { s with rx_cnt := s.rx_cnt - 1 } := by
  simp only [es8388char_ioctl, Option.some.injEq, Prod.mk.injEq] at h
  exact h.1.symm

/-- Gate invariant: along every reachable state, the semaphore value plus
the held and inflight buffer counts stays at most the ceiling. -/
theorem gate_sum_le (g : GateSys) (h : GateReach g) :
    g.dev.alloc + g.held + g.inflight ≤ ES8388CHAR_TXBUF_CNT := by
  induction h with
  | init => decide
  | @step g g' hr hs ih =>
    cases hs with
    | alloc e d r hio =>
      obtain ⟨hz, hd⟩ := ioctl_allocbuffer_some hio
      have ha : d.alloc = g.dev.alloc - 1 := by rw [hd]
      show d.alloc + (g.held + (if 0 ≤ r then 1 else 0)) + g.inflight ≤ _
      split <;> omega
    | enqueue e apb d r hh hio =>
      have hd := ioctl_enqueuebuffer_some hio
      have ha : d.alloc = g.dev.alloc := by rw [hd]
      show d.alloc + (g.held - 1) + (g.inflight + (if 0 ≤ r then 1 else 0)) ≤ _
      split <;> omega
    | complete hi =>
      show g.dev.alloc + 1 + g.held + (g.inflight - 1) ≤ _
      omega
    | free e d r hio =>
      have hd := ioctl_freebuffer_some hio
      have ha : d.alloc = g.dev.alloc := by rw [hd]
      show d.alloc + g.held + g.inflight ≤ _
      omega

/-- Claim C3: for every sequence of AllocateBuffer, ReleaseBuffer,
EnqueueTransmit and transmit-completion-callback steps starting from the
freshly registered device, the Admission Gate's in-use count (ceiling
C = 8, the initial value of the `alloc` counting semaphore) satisfies
0 ≤ in-use ≤ C: it never exceeds the ceiling and never goes negative. -/
theorem gate_inuse_in_range (g : GateSys) (h : GateReach g) :
    0 ≤ gateInUse g ∧ gateInUse g ≤ 8 := by
  have hs := gate_sum_le g h
  unfold ES8388CHAR_TXBUF_CNT at hs
  unfold gateInUse ES8388CHAR_TXBUF_CNT
  omega

/-- Claim C3 witness: the freshly registered device is reachable and its
in-use count is within range. -/
theorem gate_inuse_in_range_witness :
    0 ≤ gateInUse gateInit ∧ gateInUse gateInit ≤ 8 :=
  gate_inuse_in_range gateInit GateReach.init

/-- Queue balance along a receive trace: the initial queue followed by
the enqueued buffers equals the dequeued buffers followed by the final
queue. -/
theorem rx_queue_balance {s s' : DevS} {tr : List RxEvent}
    (h : RxTrace s tr s') :
    s.rxedq ++ enqs tr = deqs tr ++ s'.rxedq := by
  induction h with
  | nil s => simp [enqs, deqs]
  | @cons s s' s'' e es hstep htr ih =>
    cases hstep with
    | callback b =>
      simp only [enqs, deqs]
      simpa [es8388char_rxcallback] using ih
    | dequeue b rest hc hq =>
      simp only [enqs, deqs, hq]
      simpa using ih

/-- Claim C9: for every interleaving of receive-completion callbacks
(which append a completed buffer to the queue) and dequeue steps (which
remove one buffer) starting from the freshly registered device, the
dequeued buffers form a prefix of the enqueued buffers in order: the
queue never delivers a later-enqueued buffer before an earlier-enqueued
one. -/
theorem rx_fifo (tr : List RxEvent) (s' : DevS)
    (h : RxTrace initDev tr s') :
    ∃ t, deqs tr ++ t = enqs tr := by
  have hb := rx_queue_balance h
  simp only [initDev, List.nil_append] at hb
  exact ⟨s'.rxedq, hb.symm⟩

/-- Claim C9 witness: a concrete enqueue-then-dequeue interleaving. -/
theorem rx_fifo_witness :
    ∃ t, deqs [RxEvent.enq 5, RxEvent.deq 5] ++ t
           = enqs [RxEvent.enq 5, RxEvent.deq 5] :=
  rx_fifo _ _ (RxTrace.cons (RxStep.callback initDev 5)
    (RxTrace.cons
      (RxStep.dequeue (es8388char_rxcallback initDev 5) 5 []
        (by decide) (by decide))
      (RxTrace.nil _)))

/-- Claim C1 (code-bug evidence): on an `AUDIOIOC_ALLOCBUFFER` whose
`sem_wait(&priv->alloc)` succeeds (all 8 slots free) but whose
`apb_alloc` fails with `-ENOMEM`, the command returns the error with the
semaphore left decremented (7, not restored to 8): the acquired
admission slot is leaked, where the claim requires it to be released so
that in-use is unchanged. -/
theorem allocbuffer_pool_failure_leaks_slot :
    initDev.alloc = 8 ∧
    es8388char_ioctl initDev .allocbuffer extPoolFail =
      some ({ initDev with alloc := 7 }, -ENOMEM) := by
  exact ⟨rfl, by decide⟩

/-- Claim C2 (code-bug evidence): with one admission slot held
(`alloc = 7`), an `AUDIOIOC_ENQUEUEBUFFER` whose `I2S_SEND` rejects with
`-EIO_ERRNO` returns the error with the device state unchanged: no
`sem_post(&priv->alloc)` happens (the release lives only in
`es8388char_txcallback`, which the transport never invokes for a
rejected request), so the slot stays held, where the claim requires it
to be released. -/
theorem enqueuebuffer_rejection_leaks_slot :
    ({ initDev with alloc := 7 } : DevS).alloc = 7 ∧
    es8388char_ioctl { initDev with alloc := 7 } (.enqueuebuffer 1) extSendRej =
      some ({ initDev with alloc := 7 }, -EIO_ERRNO) := by
  exact ⟨rfl, by decide⟩

/-- Claim C4 (code-bug evidence): a Configure of output type with the
stereo channel count but sample rate 44100 — not in the supported set of
`es8388char_setbitrate` — returns `OK` and stores 44100 as the sample
rate; the rate-ratio programming is silently skipped instead of the
command failing with Unsupported. -/
theorem configure_unsupported_rate_accepted :
    setbitrateFsCode 44100 = none ∧
    es8388char_configure initDev
        ⟨AUDIO_TYPE_OUTPUT, 0, 44100, 0, 16, 2⟩ =
      ({ initDev with samprate := 44100, nchannels := 2, bpsamp := 16 }, OK) := by
  exact ⟨by decide, by decide⟩

/-- Claim C5 counterexample: Start issued on the freshly registered
(Idle, never-Configured) device returns success 0, and a Stop followed
by a second Stop also returns success 0 — not an IllegalTransition
error, refuting the claimed state-machine enforcement. -/
theorem start_stop_no_transition_check :
    es8388char_ioctl initDev .start extNull = some (initDev, 0) ∧
    (es8388char_ioctl initDev .stop extNull).bind
      (fun p => es8388char_ioctl p.1 .stop extNull) = some (initDev, 0) :=
  ⟨rfl, rfl⟩

/-- Claim C5 (amended): `es8388char_start` and `es8388char_stop` are
placeholders: from every device state, Start and Stop return success 0
and leave the state unchanged; no Idle/Configured/Running transition is
tracked and no IllegalTransition error exists. -/
theorem start_stop_always_ok (s : DevS) (e : Ext) :
    es8388char_ioctl s .start e = some (s, 0) ∧
    es8388char_ioctl s .stop e = some (s, 0) :=
  ⟨rfl, rfl⟩

/-- Claim C6: for every Configure(volume, v) with v in the uint16 control
field: if v > 1000 the value is ignored and the stored volume is
unchanged; if v ≤ 1000 the stored volume register value equals
`63 - 63*v/1000` in truncating integer arithmetic; the call itself
returns OK in both cases (out-of-range is silently ignored). -/
theorem configure_volume_range (s : DevS) (v : Nat) :
    (es8388char_configure s ⟨AUDIO_TYPE_FEATURE, AUDIO_FU_VOLUME, v, 0, 0, 0⟩).1.volume
        = (if v ≤ 1000 then 63 - 63 * v / 1000 else s.volume) ∧
    (es8388char_configure s ⟨AUDIO_TYPE_FEATURE, AUDIO_FU_VOLUME, v, 0, 0, 0⟩).2 = OK := by
  by_cases hv : v ≤ 1000 <;>
    simp [es8388char_configure, hv, AUDIO_TYPE_FEATURE, AUDIO_TYPE_OUTPUT,
      AUDIO_FU_VOLUME, AUDIO_FU_MUTE, AUDIO_FU_BALANCE, AUDIO_FU_MICGAIN]

/-- Claim C7: for every Configure(micGain, g) (g the int16 read from the
uint16 control field): if g is in [-16, 53] the stored mic gain becomes
g; otherwise the call reports no error (returns OK) and the prior mic
gain is retained unchanged. -/
theorem configure_micgain_range (s : DevS) (v : Nat) :
    (es8388char_configure s ⟨AUDIO_TYPE_FEATURE, AUDIO_FU_MICGAIN, v, 0, 0, 0⟩).1.micgain
        = (if -16 ≤ toInt16 v ∧ toInt16 v ≤ 53 then toInt16 v else s.micgain) ∧
    (es8388char_configure s ⟨AUDIO_TYPE_FEATURE, AUDIO_FU_MICGAIN, v, 0, 0, 0⟩).2 = OK := by
  by_cases hg : -16 ≤ toInt16 v ∧ toInt16 v ≤ 53 <;>
    simp [es8388char_configure, hg, AUDIO_TYPE_FEATURE, AUDIO_TYPE_OUTPUT,
      AUDIO_FU_VOLUME, AUDIO_FU_MUTE, AUDIO_FU_BALANCE, AUDIO_FU_MICGAIN]

/-- Claim C8: every Configure of output type with channel count different
from 2 fails with `-ERANGE` (Unsupported) and returns the device state
entirely unchanged (every field of the control state retained). -/
theorem configure_bad_channels (s : DevS) (caps : audio_caps_s)
    (hty : caps.ac_type = AUDIO_TYPE_OUTPUT) (hch : caps.ac_channels ≠ 2) :
    es8388char_configure s caps = (s, -ERANGE) := by
  simp [es8388char_configure, hty, hch, AUDIO_TYPE_FEATURE, AUDIO_TYPE_OUTPUT]

/-- Claim C8 witness: a mono (1-channel) output configure request at the
fresh device fails with `-ERANGE` and changes nothing. -/
theorem configure_bad_channels_witness :
    es8388char_configure initDev ⟨AUDIO_TYPE_OUTPUT, 0, AUDIO_SAMP_RATE_48K, 0, 16, 1⟩
      = (initDev, -ERANGE) :=
  configure_bad_channels initDev ⟨AUDIO_TYPE_OUTPUT, 0, AUDIO_SAMP_RATE_48K, 0, 16, 1⟩
    rfl (by decide)

/-- Claim C10: every ioctl command code outside the recognized
`AUDIOIOC_*` cases falls to the dispatcher's `default:` branch, which
performs no state change and returns 0 (success): unrecognized commands
are silently accepted. -/
theorem ioctl_unrecognized_cmd (s : DevS) (e : Ext) (cmd : Nat) :
    es8388char_ioctl s (.other cmd) e = some (s, 0) := rfl

end ES8388
